import Mathlib

/-!
Shallow embedding of the nyaa-cli interactive session (src/main.rs).

Conventions of the embedding:
* Machine integers (`u16`, `u64`, `usize`) are `Nat` with an explicit
  `% 2 ^ 16` / `% 2 ^ 64` wherever the Rust arithmetic can overflow or
  underflow (release-mode wrapping semantics).
* Operations that can panic in Rust (indexing out of bounds, `unwrap`
  on a failed parse) return `Option`, with `none` standing for a panic.
* The filesystem holding the `~/.nyaa` watermark file is a value of type
  `Option String` (`none` = file absent / unreadable).
* The remote fetch (`get_items`) is an oracle `Nat → String → List Response`
  mapping (page, query) to the returned records; the session state logs
  every fetch that was issued so "exactly one fetch" claims are statable.
* Strings are compared by their character lists; the decimal contents of
  the watermark file are ASCII, where bytes and chars coincide.
-/

namespace NyaaCli

/-- Value of a list of decimal digit characters, most significant first. -/
def digitsVal (l : List Char) : Nat :=
  l.foldl (fun a c => a * 10 + (c.toNat - 48)) 0

/-- True when `l` is a nonempty run of ASCII decimal digits. -/
def isDigits (l : List Char) : Bool :=
  !l.isEmpty && l.all Char.isDigit

/-- Rust `str::parse::<uN>()`: optional leading `+`, then one or more
decimal digits, value must fit in `N` bits; any other input is `Err`. -/
def parseUInt (w : Nat) (s : String) : Option Nat :=
  let l := s.data
  let core := if l.head? = some '+' then l.tail else l
  if isDigits core ∧ digitsVal core < 2 ^ w then some (digitsVal core) else none

/-- Rust `str::trim`: drop whitespace from both ends. -/
def rustTrim (s : String) : String :=
  ⟨((s.data.dropWhile Char.isWhitespace).reverse.dropWhile Char.isWhitespace).reverse⟩

/-- Rust `String::pop`: remove the last character (no-op on empty). -/
def rustPop (s : String) : String :=
  ⟨s.data.dropLast⟩

/-- One record of the search response (struct `Response` in main.rs). -/
structure Response where
  id : String
  name : String
  hash : String
  date : String
  filesize : String
  category : String
  sub_category : String
  magnet : String
  torrent : String
  seeders : String
  leechers : String
  completed : String
  status : String
deriving DecidableEq, Repr

/-- `struct Params { page: u16, query: String }`. -/
structure Params where
  page : Nat
  query : String
deriving DecidableEq, Repr

/-- `Params::new()`: page 1, empty query. -/
def Params.new : Params := ⟨1, ""⟩

/-- `Params::next_page_by`: `page = if page + amount < 1000 { page + amount } else { 1000 }`
with `u16` wrapping addition. -/
def Params.next_page_by (p : Params) (amount : Nat) : Params :=
  { p with page := if (p.page + amount) % 2 ^ 16 < 1000 then (p.page + amount) % 2 ^ 16 else 1000 }

/-- `Params::prev_page_by`: `page = if page <= amount { 0 } else { page - amount }`. -/
def Params.prev_page_by (p : Params) (amount : Nat) : Params :=
  { p with page := if p.page ≤ amount then 0 else p.page - amount }

/-- `Params::set_query`. -/
def Params.set_query (p : Params) (q : String) : Params :=
  { p with query := q }

/-- `struct App`: `state: TableState` is kept as its `selected` field only
(the offset plays no role in any transition), alongside `items`, `current`
and `last_id`. -/
structure App where
  state_selected : Option Nat
  items : List Response
  current : Option Nat
  last_id : Nat
deriving DecidableEq, Repr

/-- `App::new()`. -/
def App.new : App := ⟨none, [], none, 0⟩

/-- `App::update_items`: wholesale replacement, nothing else is touched. -/
def App.update_items (a : App) (items : List Response) : App :=
  { a with items := items }

/-- `App::first_item`. -/
def App.first_item (a : App) : App :=
  { a with current := some 0, state_selected := some 0 }

/-- `App::last_item`: `Some(items.len() - 1)` with `usize` wrapping
subtraction (wraps to `2^64 - 1` on an empty list). -/
def App.last_item (a : App) : App :=
  let last := some ((a.items.length + 2 ^ 64 - 1) % 2 ^ 64)
  { a with current := last, state_selected := last }

/-- `App::next_by`: on a selection `i`, `if i + amount >= items.len() - 1
{ items.len() - 1 } else { i + amount }` with `usize` wrapping arithmetic;
on no selection, index 0. Both `current` and the table state are set. -/
def App.next_by (a : App) (amount : Nat) : App :=
  let i := match a.state_selected with
    | some i =>
        if (i + amount) % 2 ^ 64 ≥ (a.items.length + 2 ^ 64 - 1) % 2 ^ 64 then
          (a.items.length + 2 ^ 64 - 1) % 2 ^ 64
        else (i + amount) % 2 ^ 64
    | none => 0
  { a with current := some i, state_selected := some i }

/-- `App::previous_by`: on a selection `i`, `if amount >= i { 0 } else
{ i - amount }`; on no selection, index 0. -/
def App.previous_by (a : App) (amount : Nat) : App :=
  let i := match a.state_selected with
    | some i => if amount ≥ i then 0 else i - amount
    | none => 0
  { a with current := some i, state_selected := some i }

/-- `File::options().create(true).write(true)` without truncation, then
`write_all` at offset 0: the new content overwrites a prefix of the old
content and any longer tail of the old content survives. -/
def writeStore (old : Option String) (content : String) : Option String :=
  some ⟨content.data ++ (old.getD "").data.drop content.data.length⟩

/-- `App::set_id`: update `last_id` in memory and write its decimal
representation to the watermark file. -/
def App.set_id (a : App) (store : Option String) (id : Nat) : App × Option String :=
  ({ a with last_id := id }, writeStore store (Nat.repr id))

/-- `get_last_id`: read the watermark file, trim, parse as `u64`,
defaulting to 0 on a missing file or a failed parse; never an error. -/
def get_last_id (store : Option String) : Nat :=
  match store with
  | some s => (parseUInt 64 (rustTrim s)).getD 0
  | none => 0

/-- Row of the results table drawn by `ui` for one record.  The viewed
glyph is `id.parse::<u64>().unwrap() <= app.last_id`; a failed parse is an
`unwrap` panic, modelled as `none`. -/
def renderRow (last : Nat) (r : Response) : Option (List String) :=
  match parseUInt 64 r.id with
  | none => none
  | some v =>
      some [if v ≤ last then "✅" else "❌", r.name, r.date, r.filesize, r.seeders, r.leechers]

/-- All rows drawn by `ui`; `none` when any record panics the render. -/
def renderRows (a : App) : Option (List (List String)) :=
  a.items.mapM (renderRow a.last_id)

/-- Key events as far as `run_app` distinguishes them (`KeyCode`).
`other` stands for every key the loop ignores. -/
inductive KeyCode where
  | char : Char → KeyCode
  | down : KeyCode
  | up : KeyCode
  | enter : KeyCode
  | backspace : KeyCode
  | other : KeyCode
deriving DecidableEq, Repr

/-- Full session state owned by `run_app`: the `App`, the `Params`, the
repeat-count buffer `amount`, plus the modelled external world: the
watermark file, the log of fetches issued, and the log of URLs opened. -/
structure Sess where
  app : App
  params : Params
  amount : String
  store : Option String
  fetchLog : List (Nat × String)
  opened : List String
deriving DecidableEq, Repr

/-- Result of handling one key: the session continues with the remaining
input events, quits (`q`), or panics. -/
inductive Outcome where
  | ok : Sess → List KeyCode → Outcome
  | quit : Sess → Outcome
  | panic : Outcome
deriving DecidableEq, Repr

/-- The inner query-entry loop under `/`: characters are pushed onto the
buffer, Backspace pops, Enter commits and hands the remaining events back;
every other key is ignored.  An exhausted event list models the loop still
blocked waiting for input. -/
def queryLoop : List KeyCode → String → String × List KeyCode
  | [], buf => (buf, [])
  | k :: rest, buf =>
    match k with
    | .char c => queryLoop rest (buf.push c)
    | .enter => (buf, rest)
    | .backspace => queryLoop rest (rustPop buf)
    | _ => queryLoop rest buf

/-- Body shared by the `KeyCode::Down | KeyCode::Char('j')` arm of
`run_app`: consume the repeat buffer, move down, clear the buffer. -/
def downBody (s : Sess) (rest : List KeyCode) : Outcome :=
  .ok { s with app := s.app.next_by ((parseUInt 64 s.amount).getD 1), amount := "" } rest

/-- Body shared by the `KeyCode::Up | KeyCode::Char('k')` arm of
`run_app`: consume the repeat buffer, move up, clear the buffer. -/
def upBody (s : Sess) (rest : List KeyCode) : Outcome :=
  .ok { s with app := s.app.previous_by ((parseUInt 64 s.amount).getD 1), amount := "" } rest

/-- The `KeyCode::Char(c)` arms of the `run_app` match.  `fetch` is the
`get_items` oracle; `rest` is the queue of input events still to come,
which the `/` and `h` branches consume from their nested loops.  The Rust
match on character literals is an if-chain on the character in the source
order of the arms (the literals are disjoint, so the order is immaterial;
every unlisted character falls through to the final ignore arm). -/
def charStep (fetch : Nat → String → List Response) (s : Sess)
    (c : Char) (rest : List KeyCode) : Outcome :=
  if c = '9' then .ok { s with amount := s.amount.push '9' } rest
  else if c = '8' then .ok { s with amount := s.amount.push '8' } rest
  else if c = '7' then .ok { s with amount := s.amount.push '7' } rest
  else if c = '6' then .ok { s with amount := s.amount.push '6' } rest
  else if c = '5' then .ok { s with amount := s.amount.push '5' } rest
  else if c = '4' then .ok { s with amount := s.amount.push '4' } rest
  else if c = '3' then .ok { s with amount := s.amount.push '3' } rest
  else if c = '2' then .ok { s with amount := s.amount.push '2' } rest
  else if c = '1' then .ok { s with amount := s.amount.push '1' } rest
  else if c = '0' then .ok { s with amount := s.amount.push '0' } rest
  else if c = 'q' then .quit s
  else if c = 'j' then downBody s rest
  else if c = 'k' then upBody s rest
  else if c = 'G' then .ok { s with app := s.app.last_item } rest
  else if c = 'g' then .ok { s with app := s.app.first_item } rest
  else if c = 'n' then
    let p := s.params.next_page_by ((parseUInt 16 s.amount).getD 1)
    .ok { s with params := p, app := s.app.update_items (fetch p.page p.query),
                 fetchLog := s.fetchLog ++ [(p.page, p.query)] } rest
  else if c = 'p' then
    let p := s.params.prev_page_by ((parseUInt 16 s.amount).getD 1)
    .ok { s with params := p, app := s.app.update_items (fetch p.page p.query),
                 fetchLog := s.fetchLog ++ [(p.page, p.query)] } rest
  else if c = '/' then
    let q := (queryLoop rest "").1
    let rest' := (queryLoop rest "").2
    let p := s.params.set_query q
    .ok { s with params := p, app := s.app.update_items (fetch p.page p.query),
                 fetchLog := s.fetchLog ++ [(p.page, p.query)] } rest'
  else if c = 'o' then
    match s.app.items.get? (s.app.current.getD 0) with
    | some r => .ok { s with opened := s.opened ++ ["https://nyaa.si/view/" ++ r.id] } rest
    | none => .panic
  else if c = 'm' then
    match s.app.items.get? (s.app.current.getD 0) with
    | some r => .ok { s with opened := s.opened ++ [r.magnet] } rest
    | none => .panic
  else if c = 't' then
    match s.app.items.get? (s.app.current.getD 0) with
    | some r => .ok { s with opened := s.opened ++ [r.torrent] } rest
    | none => .panic
  else if c = 'b' then
    let p := s.params.set_query ""
    .ok { s with params := p, app := s.app.update_items (fetch p.page p.query),
                 fetchLog := s.fetchLog ++ [(p.page, p.query)] } rest
  else if c = 'h' then
    .ok s rest.tail
  else if c = 's' then
    match s.app.items.get? (s.app.current.getD 0) with
    | some r =>
        let id := (parseUInt 64 r.id).getD 0
        .ok { s with app := (s.app.set_id s.store id).1, store := (s.app.set_id s.store id).2 } rest
    | none => .panic
  else .ok s rest

/-- One iteration of the `run_app` match on the received key: character
keys go through `charStep`; the arrow keys share the `j`/`k` bodies; the
remaining keys are ignored in browse mode. -/
def dispatch (fetch : Nat → String → List Response) (s : Sess)
    (k : KeyCode) (rest : List KeyCode) : Outcome :=
  match k with
  | .char c => charStep fetch s c rest
  | .down => downBody s rest
  | .up => upBody s rest
  | _ => .ok s rest

/-- Startup (`main` lines 179–183): a fresh `App`, then
`app.set_id(get_last_id().unwrap())` — which both loads the watermark and
writes it back — then `Params::new()` and the initial fetch. -/
def startup (fetch : Nat → String → List Response) (store : Option String) : Sess :=
  let loaded := get_last_id store
  let a1 := (App.new.set_id store loaded).1
  let store1 := (App.new.set_id store loaded).2
  let p := Params.new
  { app := a1.update_items (fetch p.page p.query), params := p, amount := "",
    store := store1, fetchLog := [(p.page, p.query)], opened := [] }

/-- The constant-empty fetch oracle, used for concrete scenarios. -/
def zfetch : Nat → String → List Response := fun _ _ => []

/-- A sample record with the numeric identifier "1". -/
def rEx : Response := ⟨"1", "a", "", "", "", "", "", "", "", "", "", "", ""⟩

/-- A sample record whose identifier "abc" is not numeric. -/
def rBad : Response := ⟨"abc", "x", "", "", "", "", "", "", "", "", "", "", ""⟩

/-- A sample record with the identifier "42". -/
def r42c : Response := ⟨"42", "b", "", "", "", "", "", "", "", "", "", "", ""⟩

/-- Session in which a six-element result set, with row 5 selected, was
just replaced by a single-element result set (`update_items` re-clamps
nothing). -/
def sessC1 : Sess :=
  { app := (App.mk (some 5) (List.replicate 6 rEx) (some 5) 0).update_items [rEx],
    params := Params.new, amount := "", store := none, fetchLog := [], opened := [] }

/-- Session in which `last_id = 7` and the single record "42" is selected. -/
def sessC5 : Sess :=
  { app := ⟨some 0, [r42c], some 0, 7⟩, params := Params.new, amount := "",
    store := none, fetchLog := [], opened := [] }

/-- The repeat-count buffer of the session an `Outcome` carries. -/
def amountOf : Outcome → Option String
  | .ok s _ => some s.amount
  | .quit s => some s.amount
  | .panic => none

/-- The watermark-file state of the session an `Outcome` carries
(`none` for a panic, which has no resulting state). -/
def Outcome.storeOf : Outcome → Option (Option String)
  | .ok s _ => some s.store
  | .quit s => some s.store
  | .panic => none

end NyaaCli

namespace NyaaCli

/-- Helper for the query-entry loop: a run of character keys followed by
Enter commits the characters appended to the buffer and hands back the
events after the Enter. -/
theorem queryLoop_chars (cs : List Char) (rest : List KeyCode) (buf : String) :
    queryLoop (cs.map KeyCode.char ++ KeyCode.enter :: rest) buf = (⟨buf.data ++ cs⟩, rest) := by
  induction cs generalizing buf with
  | nil => simp [queryLoop]
  | cons c cs ih => simp [queryLoop, String.push, ih]

/-- C1: the claim says replacing the Result Set by a strictly shorter
sequence while the selection points past the new length must not panic on
the next record-addressing command.  In the code, `o`, `m`, `t` and `s`
index `app.items[app.current.unwrap_or(0)]` without any bounds check and
no re-clamping ever happens after `update_items`, so all four panic: with
one item left and selection 5 every record-addressing key is a panic. -/
theorem C1_shrunk_selection_panics :
    sessC1.app.items.length = 1 ∧ sessC1.app.current = some 5
  ∧ dispatch zfetch sessC1 (.char 'o') [] = .panic
  ∧ dispatch zfetch sessC1 (.char 'm') [] = .panic
  ∧ dispatch zfetch sessC1 (.char 't') [] = .panic
  ∧ dispatch zfetch sessC1 (.char 's') [] = .panic := by decide

/-- C2 counterexample: the claim says the repeat-count buffer is empty
immediately after every pagination command.  Pressing the digit 5 and then
the next-page key leaves the buffer still holding "5": the `n` branch of
`run_app` never resets `amount`. -/
theorem C2_pagination_keeps_buffer :
    dispatch zfetch (startup zfetch none) (.char '5') [] =
      .ok { startup zfetch none with amount := "5" } []
  ∧ amountOf (dispatch zfetch { startup zfetch none with amount := "5" } (.char 'n') []) = some "5"
  ∧ some "5" ≠ some ("" : String) := by decide

/-- C2 amended: digits accumulate ("1" then "2" gives buffer "12", whose
parse is 12, and an empty buffer parses to the default 1); the navigation
commands (down/j, up/k) consume the buffer and clear it; the pagination
commands (n, p) consume the buffer's value but leave the buffer unchanged
rather than clearing it. -/
theorem C2_amended (f : Nat → String → List Response) (s : Sess) (rest : List KeyCode) :
    dispatch f { s with amount := "" } (.char '1') rest = .ok { s with amount := "1" } rest
  ∧ dispatch f { s with amount := "1" } (.char '2') rest = .ok { s with amount := "12" } rest
  ∧ (parseUInt 64 "12").getD 1 = 12
  ∧ (parseUInt 64 "").getD 1 = 1
  ∧ dispatch f s .down rest =
      .ok { s with app := s.app.next_by ((parseUInt 64 s.amount).getD 1), amount := "" } rest
  ∧ dispatch f s (.char 'j') rest =
      .ok { s with app := s.app.next_by ((parseUInt 64 s.amount).getD 1), amount := "" } rest
  ∧ dispatch f s .up rest =
      .ok { s with app := s.app.previous_by ((parseUInt 64 s.amount).getD 1), amount := "" } rest
  ∧ dispatch f s (.char 'k') rest =
      .ok { s with app := s.app.previous_by ((parseUInt 64 s.amount).getD 1), amount := "" } rest
  ∧ dispatch f s (.char 'n') rest =
      (let p := s.params.next_page_by ((parseUInt 16 s.amount).getD 1)
       .ok { s with params := p, app := s.app.update_items (f p.page p.query),
                    fetchLog := s.fetchLog ++ [(p.page, p.query)] } rest)
  ∧ dispatch f s (.char 'p') rest =
      (let p := s.params.prev_page_by ((parseUInt 16 s.amount).getD 1)
       .ok { s with params := p, app := s.app.update_items (f p.page p.query),
                    fetchLog := s.fetchLog ++ [(p.page, p.query)] } rest) :=
  ⟨rfl, rfl, by decide, by decide, rfl, rfl, rfl, rfl, rfl, rfl⟩

/-- C3 counterexample: the claim says `moveDown`/`moveUp` are no-ops on an
empty result set.  On the fresh empty `App`, `next_by 1` takes the
unset-selection branch and selects index 0 — the state changes. -/
theorem C3_empty_not_noop :
    App.new.items = [] ∧ App.next_by App.new 1 ≠ App.new := by decide

/-- C6: the claim says persisting watermark 1234 and reloading yields 1234
for every prior content of the file.  `set_id` opens the file with
create+write but without truncation, so over the prior content "999999"
the write leaves "123499" and the reload yields 123499.  The second half
of the claim does hold: a missing or unparseable file loads as 0. -/
theorem C6_roundtrip_fails :
    get_last_id (writeStore (some "999999") (Nat.repr 1234)) = 123499
  ∧ (123499 : Nat) ≠ 1234
  ∧ get_last_id none = 0
  ∧ get_last_id (some "corrupt") = 0
  ∧ get_last_id (writeStore none (Nat.repr 1234)) = 1234 := by decide

/-- C8: the claim says every parse of user-facing numeric data defaults
silently, including the render path.  The repeat-count parses and the
mark-viewed identifier parse do default (to 1 and 0), but the viewed-glyph
computation in `ui` calls `id.parse::<u64>().unwrap()`, which panics on a
non-numeric identifier such as "abc": rendering a result set containing
such a record is a crash, not a default. -/
theorem C8_render_unwrap_panics :
    renderRow 0 rBad = none
  ∧ renderRows ⟨none, [rBad], none, 0⟩ = none
  ∧ (parseUInt 64 "").getD 1 = 1
  ∧ (parseUInt 16 "abc").getD 1 = 1
  ∧ (parseUInt 64 "abc").getD 0 = 0 := by decide

/-- C9 counterexample: the claim says no step other than an explicit mark
viewed command writes the watermark file, startup included.  But `main`
runs `app.set_id(get_last_id().unwrap())`, and `set_id` always writes: on
a machine with no watermark file, startup alone creates it with "0". -/
theorem C9_startup_writes_store :
    (startup zfetch none).store = some "0" ∧ some "0" ≠ (none : Option String) := by decide

/-- C10: with an unset selection (`current = None`), the record-addressing
commands all read `items[current.unwrap_or(0)]`, i.e. the record at index
0; on a non-empty result set (head `r`) the out-of-bounds branch is
unreachable and each command operates on `r`: `o` opens its detail page,
`m` its magnet link, `t` its torrent link, and `s` persists its parsed
identifier. -/
theorem C10_unset_selection_uses_head (f : Nat → String → List Response)
    (r : Response) (tl : List Response) (sel : Option Nat) (lid : Nat)
    (p : Params) (amt : String) (st : Option String)
    (log : List (Nat × String)) (op : List String) (rest : List KeyCode) :
    dispatch f ⟨⟨sel, r :: tl, none, lid⟩, p, amt, st, log, op⟩ (.char 'o') rest =
      .ok ⟨⟨sel, r :: tl, none, lid⟩, p, amt, st, log, op ++ ["https://nyaa.si/view/" ++ r.id]⟩ rest
  ∧ dispatch f ⟨⟨sel, r :: tl, none, lid⟩, p, amt, st, log, op⟩ (.char 'm') rest =
      .ok ⟨⟨sel, r :: tl, none, lid⟩, p, amt, st, log, op ++ [r.magnet]⟩ rest
  ∧ dispatch f ⟨⟨sel, r :: tl, none, lid⟩, p, amt, st, log, op⟩ (.char 't') rest =
      .ok ⟨⟨sel, r :: tl, none, lid⟩, p, amt, st, log, op ++ [r.torrent]⟩ rest
  ∧ dispatch f ⟨⟨sel, r :: tl, none, lid⟩, p, amt, st, log, op⟩ (.char 's') rest =
      .ok ⟨⟨sel, r :: tl, none, (parseUInt 64 r.id).getD 0⟩, p, amt,
           writeStore st (Nat.repr ((parseUInt 64 r.id).getD 0)), log, op⟩ rest :=
  ⟨rfl, rfl, rfl, rfl⟩

/-- C7: in query-entry mode a character key appends to the text buffer and
Backspace removes the last character, while Enter commits: dispatching `/`
with a run of character keys followed by Enter issues exactly one fetch
with the page counter unchanged and the query equal to the committed
buffer, replaces the result set with the response, and returns to browse
mode with the remaining events; nothing else of the session (selection,
repeat buffer, store, opened log) changes, so no browse-mode command runs
inside query entry. -/
theorem C7_query_entry (f : Nat → String → List Response) (s : Sess)
    (cs : List Char) (rest : List KeyCode) (buf : String) (c : Char) :
    queryLoop (KeyCode.char c :: rest) buf = queryLoop rest (buf.push c)
  ∧ queryLoop (KeyCode.backspace :: rest) buf = queryLoop rest (rustPop buf)
  ∧ dispatch f s (.char '/') (cs.map KeyCode.char ++ KeyCode.enter :: rest) =
      .ok { s with params := s.params.set_query ⟨cs⟩,
                   app := s.app.update_items (f s.params.page ⟨cs⟩),
                   fetchLog := s.fetchLog ++ [(s.params.page, ⟨cs⟩)] } rest := by
  refine ⟨rfl, rfl, ?_⟩
  show (let q := (queryLoop (cs.map KeyCode.char ++ KeyCode.enter :: rest) "").1
        let rest2 := (queryLoop (cs.map KeyCode.char ++ KeyCode.enter :: rest) "").2
        let p := s.params.set_query q
        Outcome.ok { s with params := p, app := s.app.update_items (f p.page p.query), fetchLog := s.fetchLog ++ [(p.page, p.query)] } rest2) = _
  rw [queryLoop_chars]
  rfl

/-- C3 amended: on a non-empty result set with selection `i`, `next_by n`
clamps the selection to `min (i + n) (length - 1)` (machine arithmetic,
`i + n` below `2^64`); `previous_by n` moves a set selection `i` to
`i - n` truncated at 0 on every result set, the empty one included — so
at selection 0 `previous_by` is a fixed point (a genuine no-op); with an
unset selection both operations select index 0 regardless of direction,
even on an empty set, where index 0 is out of bounds; and on an empty set
with a set selection `next_by` re-selects `(i + n) mod 2^64` under the
wrapped `len - 1` arithmetic, so the operations are not guaranteed to be
no-ops on an empty set. -/
theorem C3_amended (a : App) (n i : Nat) (hsel : a.state_selected = some i) :
    (a.items ≠ [] → a.items.length < 2 ^ 64 → i + n < 2 ^ 64 →
        (a.next_by n).state_selected = some (min (i + n) (a.items.length - 1))
      ∧ (a.next_by n).current = some (min (i + n) (a.items.length - 1)))
  ∧ (a.previous_by n).state_selected = some (i - n)
  ∧ (a.previous_by n).current = some (i - n)
  ∧ (∀ b : App, b.state_selected = none →
        (b.next_by n).state_selected = some 0 ∧ (b.next_by n).current = some 0
      ∧ (b.previous_by n).state_selected = some 0 ∧ (b.previous_by n).current = some 0)
  ∧ (∀ w j m : Nat, App.next_by ⟨some j, [], none, w⟩ m =
        ⟨some ((j + m) % 2 ^ 64), [], some ((j + m) % 2 ^ 64), w⟩)
  ∧ (∀ w j m : Nat, App.previous_by ⟨some j, [], none, w⟩ m =
        ⟨some (j - m), [], some (j - m), w⟩)
  ∧ (∀ w m : Nat, App.previous_by ⟨some 0, [], some 0, w⟩ m = ⟨some 0, [], some 0, w⟩) := by
  have hK : (2:Nat) ^ 64 = 18446744073709551616 := by norm_num
  refine ⟨?_, ?_, ?_, ?_, ?_, ?_, ?_⟩
  · intro hne hlen hn
    have h0 : 0 < a.items.length := List.length_pos.mpr hne
    have e1 : (i + n) % 2 ^ 64 = i + n := Nat.mod_eq_of_lt hn
    have e2 : (a.items.length + 2 ^ 64 - 1) % 2 ^ 64 = a.items.length - 1 := by
      rw [hK] at hlen ⊢
      omega
    constructor
    · simp only [App.next_by, hsel]
      rw [e1, e2]
      split
      · exact congrArg some (by omega)
      · exact congrArg some (by omega)
    · simp only [App.next_by, hsel]
      rw [e1, e2]
      split
      · exact congrArg some (by omega)
      · exact congrArg some (by omega)
  · simp only [App.previous_by, hsel]
    split
    · exact congrArg some (by omega)
    · exact congrArg some (by omega)
  · simp only [App.previous_by, hsel]
    split
    · exact congrArg some (by omega)
    · exact congrArg some (by omega)
  · intro b hb
    exact ⟨by simp [App.next_by, hb], by simp [App.next_by, hb],
           by simp [App.previous_by, hb], by simp [App.previous_by, hb]⟩
  · intro w j m
    have hm : (j + m) % 2 ^ 64 < 2 ^ 64 := Nat.mod_lt _ (by norm_num)
    simp only [App.next_by, List.length_nil]
    have hval : (if (j + m) % 2 ^ 64 ≥ (0 + 2 ^ 64 - 1) % 2 ^ 64 then (0 + 2 ^ 64 - 1) % 2 ^ 64
        else (j + m) % 2 ^ 64) = (j + m) % 2 ^ 64 := by
      rw [hK] at hm ⊢
      split
      · omega
      · rfl
    rw [hval]
  · intro w j m
    simp only [App.previous_by]
    have hval : (if m ≥ j then 0 else j - m) = j - m := by
      split
      · omega
      · rfl
    rw [hval]
  · intro w m
    simp only [App.previous_by]
    rw [if_pos (Nat.zero_le m)]

/-- Witness for C3: from selection 1 in a three-element set, moving down
by 5 clamps to the last index 2 and moving up by 5 clamps to 0; on an
empty set, moving up by 3 from selection 2 re-selects 2 - 3 = 0, and
moving up from selection 0 is a fixed point. -/
theorem C3_amended_witness :
    (App.next_by ⟨some 1, [rEx, rEx, rEx], some 1, 0⟩ 5).state_selected = some 2
  ∧ (App.previous_by ⟨some 1, [rEx, rEx, rEx], some 1, 0⟩ 5).state_selected = some 0
  ∧ App.previous_by ⟨some 2, [], none, 7⟩ 3 = ⟨some 0, [], some 0, 7⟩
  ∧ App.previous_by ⟨some 0, [], some 0, 7⟩ 3 = ⟨some 0, [], some 0, 7⟩ := by
  have h := C3_amended ⟨some 1, [rEx, rEx, rEx], some 1, 0⟩ 5 1 rfl
  exact ⟨(h.1 (by decide) (by norm_num) (by norm_num)).1.trans (by decide),
         h.2.1.trans (by decide),
         (h.2.2.2.2.2.1 7 2 3).trans (by decide),
         h.2.2.2.2.2.2 7 3⟩

/-- C4: for every starting page at most 1000 and every `u16` amount,
`next_page_by` never yields a page above 1000 (and from 998 with amount 5
it yields exactly 1000), and `prev_page_by` computes the integer
`max (page - amount) 0`: never negative, clamped at the floor 0. -/
theorem C4_page_clamp (p : Params) (amount : Nat)
    (hp : p.page ≤ 1000) (ha : amount < 2 ^ 16) :
    (p.next_page_by amount).page ≤ 1000
  ∧ (Params.next_page_by ⟨998, p.query⟩ 5).page = 1000
  ∧ ((p.prev_page_by amount).page : Int) = max ((p.page : Int) - (amount : Int)) 0 := by
  have hK : (2:Nat) ^ 16 = 65536 := by norm_num
  refine ⟨?_, ?_, ?_⟩
  · simp only [Params.next_page_by]
    rw [hK]
    split
    · omega
    · omega
  · norm_num [Params.next_page_by]
  · simp only [Params.prev_page_by]
    by_cases h : p.page ≤ amount
    · rw [if_pos h]
      omega
    · rw [if_neg h]
      omega

/-- Witness for C4: page 998, amount 5. -/
theorem C4_page_clamp_witness :
    (Params.next_page_by ⟨998, ""⟩ 5).page ≤ 1000
  ∧ (Params.next_page_by ⟨998, ""⟩ 5).page = 1000
  ∧ ((Params.prev_page_by ⟨998, ""⟩ 5).page : Int) = max ((998 : Int) - (5 : Int)) 0 := by
  have h := C4_page_clamp ⟨998, ""⟩ 5 (by norm_num) (by norm_num)
  exact ⟨h.1, h.2.1, h.2.2⟩

/-- C5: a record whose identifier parses to `k` is rendered with the ✅
glyph exactly when `k` is at most the in-memory watermark; dispatching the
mark-viewed key while the record with identifier "42" is selected sets
`last_id` to 42 and persists "42", leaving the result set and the fetch
log unchanged (no refetch); under the new watermark 42 every record whose
identifier parses to a value at most 42 renders as ✅. -/
theorem C5_viewed_watermark (last k : Nat) (r : Response) (hk : parseUInt 64 r.id = some k)
    (f : Nat → String → List Response) (s : Sess) (rest : List KeyCode)
    (i : Nat) (r42 : Response)
    (hc : s.app.current = some i) (hi : s.app.items.get? i = some r42) (hid : r42.id = "42")
    (r2 : Response) (k2 : Nat) (hk2 : parseUInt 64 r2.id = some k2) (hle : k2 ≤ 42) :
    renderRow last r =
      some ((if k ≤ last then "✅" else "❌") :: [r.name, r.date, r.filesize, r.seeders, r.leechers])
  ∧ dispatch f s (.char 's') rest =
      .ok { s with app := { s.app with last_id := 42 }, store := writeStore s.store "42" } rest
  ∧ renderRow 42 r2 = some ("✅" :: [r2.name, r2.date, r2.filesize, r2.seeders, r2.leechers]) := by
  refine ⟨?_, ?_, ?_⟩
  · simp only [renderRow, hk]
  · have hg : s.app.items.get? (s.app.current.getD 0) = some r42 := by rw [hc]; exact hi
    show (match s.app.items.get? (s.app.current.getD 0) with
        | some r3 => Outcome.ok { s with app := (s.app.set_id s.store ((parseUInt 64 r3.id).getD 0)).1, store := (s.app.set_id s.store ((parseUInt 64 r3.id).getD 0)).2 } rest
        | none => Outcome.panic) = _
    rw [hg]
    show Outcome.ok { s with app := (s.app.set_id s.store ((parseUInt 64 r42.id).getD 0)).1, store := (s.app.set_id s.store ((parseUInt 64 r42.id).getD 0)).2 } rest = _
    rw [hid]
    have h42 : (parseUInt 64 "42").getD 0 = 42 := by decide
    rw [h42]
    rfl
  · simp only [renderRow, hk2, if_pos hle]

/-- Witness for C5: the record "1" under watermark 50 renders ✅, and
marking the selected record "42" in `sessC5` persists 42. -/
theorem C5_viewed_watermark_witness :
    renderRow 50 rEx = some ("✅" :: [rEx.name, rEx.date, rEx.filesize, rEx.seeders, rEx.leechers])
  ∧ dispatch zfetch sessC5 (.char 's') [] =
      .ok { sessC5 with app := { sessC5.app with last_id := 42 },
                        store := writeStore sessC5.store "42" } [] := by
  have h := C5_viewed_watermark 50 1 rEx (by decide) zfetch sessC5 [] 0 r42c
    rfl rfl rfl rEx 1 (by decide) (by decide)
  exact ⟨h.1.trans (by decide), h.2.1⟩

/-- C9 amended: the watermark file is written by startup — which writes
the loaded watermark straight back — and by each mark-viewed command,
which sets the in-memory watermark to the selected record's parsed
identifier and persists it in the same step, before the loop continues;
dispatching any key other than `s` leaves the file untouched in every
non-panicking outcome. -/
theorem C9_amended (f : Nat → String → List Response) (s : Sess) (k : KeyCode)
    (rest : List KeyCode) (hk : k ≠ KeyCode.char 's') :
    (∀ st, (dispatch f s k rest).storeOf = some st → st = s.store)
  ∧ (∀ prior, (startup f prior).store = writeStore prior (Nat.repr (get_last_id prior)))
  ∧ (∀ i r, s.app.current = some i → s.app.items.get? i = some r →
      dispatch f s (.char 's') rest =
        .ok { s with app := { s.app with last_id := (parseUInt 64 r.id).getD 0 },
                     store := writeStore s.store (Nat.repr ((parseUInt 64 r.id).getD 0)) } rest) := by
  refine ⟨?_, fun _ => rfl, ?_⟩
  · intro st h
    cases k with
    | down => exact (Option.some_inj.mp h).symm
    | up => exact (Option.some_inj.mp h).symm
    | enter => exact (Option.some_inj.mp h).symm
    | backspace => exact (Option.some_inj.mp h).symm
    | other => exact (Option.some_inj.mp h).symm
    | char c =>
      replace h : (charStep f s c rest).storeOf = some st := h
      by_cases h1 : c = '9'
      · subst h1; exact (Option.some_inj.mp h).symm
      by_cases h2 : c = '8'
      · subst h2; exact (Option.some_inj.mp h).symm
      by_cases h3 : c = '7'
      · subst h3; exact (Option.some_inj.mp h).symm
      by_cases h4 : c = '6'
      · subst h4; exact (Option.some_inj.mp h).symm
      by_cases h5 : c = '5'
      · subst h5; exact (Option.some_inj.mp h).symm
      by_cases h6 : c = '4'
      · subst h6; exact (Option.some_inj.mp h).symm
      by_cases h7 : c = '3'
      · subst h7; exact (Option.some_inj.mp h).symm
      by_cases h8 : c = '2'
      · subst h8; exact (Option.some_inj.mp h).symm
      by_cases h9 : c = '1'
      · subst h9; exact (Option.some_inj.mp h).symm
      by_cases h10 : c = '0'
      · subst h10; exact (Option.some_inj.mp h).symm
      by_cases h11 : c = 'q'
      · subst h11; exact (Option.some_inj.mp h).symm
      by_cases h12 : c = 'j'
      · subst h12; exact (Option.some_inj.mp h).symm
      by_cases h13 : c = 'k'
      · subst h13; exact (Option.some_inj.mp h).symm
      by_cases h14 : c = 'G'
      · subst h14; exact (Option.some_inj.mp h).symm
      by_cases h15 : c = 'g'
      · subst h15; exact (Option.some_inj.mp h).symm
      by_cases h16 : c = 'n'
      · subst h16; exact (Option.some_inj.mp h).symm
      by_cases h17 : c = 'p'
      · subst h17; exact (Option.some_inj.mp h).symm
      by_cases h18 : c = '/'
      · subst h18; exact (Option.some_inj.mp h).symm
      by_cases h19 : c = 'o'
      · subst h19
        replace h : Outcome.storeOf (match s.app.items.get? (s.app.current.getD 0) with
            | some r => Outcome.ok { s with opened := s.opened ++ ["https://nyaa.si/view/" ++ r.id] } rest
            | none => Outcome.panic) = some st := h
        cases hg : s.app.items.get? (s.app.current.getD 0) with
        | some r => rw [hg] at h; exact (Option.some_inj.mp h).symm
        | none => rw [hg] at h; exact Option.noConfusion h
      by_cases h20 : c = 'm'
      · subst h20
        replace h : Outcome.storeOf (match s.app.items.get? (s.app.current.getD 0) with
            | some r => Outcome.ok { s with opened := s.opened ++ [r.magnet] } rest
            | none => Outcome.panic) = some st := h
        cases hg : s.app.items.get? (s.app.current.getD 0) with
        | some r => rw [hg] at h; exact (Option.some_inj.mp h).symm
        | none => rw [hg] at h; exact Option.noConfusion h
      by_cases h21 : c = 't'
      · subst h21
        replace h : Outcome.storeOf (match s.app.items.get? (s.app.current.getD 0) with
            | some r => Outcome.ok { s with opened := s.opened ++ [r.torrent] } rest
            | none => Outcome.panic) = some st := h
        cases hg : s.app.items.get? (s.app.current.getD 0) with
        | some r => rw [hg] at h; exact (Option.some_inj.mp h).symm
        | none => rw [hg] at h; exact Option.noConfusion h
      by_cases h22 : c = 'b'
      · subst h22; exact (Option.some_inj.mp h).symm
      by_cases h23 : c = 'h'
      · subst h23; exact (Option.some_inj.mp h).symm
      by_cases h24 : c = 's'
      · exact absurd (congrArg KeyCode.char h24) hk
      unfold charStep at h
      rw [if_neg h1, if_neg h2, if_neg h3, if_neg h4, if_neg h5, if_neg h6, if_neg h7,
          if_neg h8, if_neg h9, if_neg h10, if_neg h11, if_neg h12, if_neg h13, if_neg h14,
          if_neg h15, if_neg h16, if_neg h17, if_neg h18, if_neg h19, if_neg h20, if_neg h21,
          if_neg h22, if_neg h23, if_neg h24] at h
      exact (Option.some_inj.mp h).symm
  · intro i r hc hi
    have hg : s.app.items.get? (s.app.current.getD 0) = some r := by rw [hc]; exact hi
    show (match s.app.items.get? (s.app.current.getD 0) with
        | some r2 => Outcome.ok { s with app := (s.app.set_id s.store ((parseUInt 64 r2.id).getD 0)).1, store := (s.app.set_id s.store ((parseUInt 64 r2.id).getD 0)).2 } rest
        | none => Outcome.panic) = _
    rw [hg]
    rfl

/-- Witness for C9: startup from an absent watermark file writes back the
loaded default. -/
theorem C9_amended_witness :
    (startup zfetch none).store = writeStore none (Nat.repr (get_last_id none)) := by
  have h := C9_amended zfetch (startup zfetch none) KeyCode.down [] (by decide)
  exact h.2.1 none

end NyaaCli
